import Mathlib

/-
Verification of the JKBMS BLE codec (JKBMS.cpp / JKBMS.h): the frame
reassembler state machine `handleNotification`, the decoders `parseData`,
`bms_settings`, `parseDeviceInfo`, and the outbound command builder
`writeRegister` with its additive checksum `crc`.

Modelling conventions, used consistently below:
- C `uint8_t` buffer contents and chunk bytes are modelled as `Nat`
  (theorems that need byte-width facts carry `< 256` hypotheses);
- C float/double arithmetic on decoded fields is modelled over `ℚ`:
  multiplication by the literals `0.001` / `0.1` becomes exact division
  by `1000` / `10` (the decimal values the source intends);
- `hi << 8 | lo` on byte operands is bit-field concatenation and is
  modelled as `hi * 256 + lo`; likewise for the 24- and 32-bit joins;
- C `int` results of 32-bit joins are reinterpreted through `toInt32`
  (two's complement on the low 32 bits), matching the machine behaviour
  of expressions such as `0xFF << 24 | ...` used for sign extension.
-/

/-- Two's-complement reinterpretation of a 32-bit bit pattern, as C `int`
arithmetic produces for the decode expressions of `parseData` and
`bms_settings`. -/
def toInt32 (n : Nat) : Int :=
  if n % 4294967296 < 2147483648 then (n % 4294967296 : Int)
  else (n % 4294967296 : Int) - 4294967296

/-- Little-endian 16-bit join `b (lo+1) << 8 | b lo` from the frame buffer. -/
def u16le (b : Nat → Nat) (lo : Nat) : Nat :=
  b (lo + 1) * 256 + b lo

/-- Little-endian 32-bit join `b (lo+3) << 24 | ... | b lo`, reinterpreted as
a C `int` (the source stores these into `float` or `int` fields). -/
def i32le (b : Nat → Nat) (lo : Nat) : Int :=
  toInt32 (b (lo + 3) * 16777216 + b (lo + 2) * 65536 + b (lo + 1) * 256 + b lo)

/-- Sign extension of a 16-bit pair into a signed value, as the spec words it:
a pair with the sign bit set becomes the 32-bit two's-complement negative. -/
def sext16 (hi lo : Nat) : Int :=
  if 32768 ≤ hi * 256 + lo then (hi * 256 + lo : Int) - 65536
  else (hi * 256 + lo : Int)

/-- Fields written by `JKBMS::parseData` (the "BMS Data Fields" block of
JKBMS.h). Float fields are modelled as `ℚ`, integer fields as `Nat`. -/
structure CellDataFields where
  cellVoltage : List ℚ
  wireResist : List ℚ
  Average_Cell_Voltage : ℚ
  Delta_Cell_Voltage : ℚ
  Battery_Voltage : ℚ
  Battery_Power : ℚ
  Charge_Current : ℚ
  Battery_T1 : ℚ
  Battery_T2 : ℚ
  MOS_Temp : ℚ
  Percent_Remain : Nat
  Capacity_Remain : ℚ
  Nominal_Capacity : ℚ
  Cycle_Count : ℚ
  Cycle_Capacity : ℚ
  Uptime : Nat
  sec : Nat
  mi : Nat
  hr : Nat
  days : Nat
  Balance_Curr : ℚ
  Balance : Bool
  Charge : Bool
  Discharge : Bool
  Balancing_Action : Nat
deriving DecidableEq

/-- Fields written by `JKBMS::bms_settings` (the "BMS Settings" block of
JKBMS.h). `cell_count` is a C `int`; the rest are `float`. -/
structure SettingsFields where
  cell_voltage_undervoltage_protection : ℚ
  cell_voltage_undervoltage_recovery : ℚ
  cell_voltage_overvoltage_protection : ℚ
  cell_voltage_overvoltage_recovery : ℚ
  balance_trigger_voltage : ℚ
  power_off_voltage : ℚ
  max_charge_current : ℚ
  charge_overcurrent_protection_delay : ℚ
  charge_overcurrent_protection_recovery_time : ℚ
  max_discharge_current : ℚ
  discharge_overcurrent_protection_delay : ℚ
  discharge_overcurrent_protection_recovery_time : ℚ
  short_circuit_protection_recovery_time : ℚ
  max_balance_current : ℚ
  charge_overtemperature_protection : ℚ
  charge_overtemperature_protection_recovery : ℚ
  discharge_overtemperature_protection : ℚ
  discharge_overtemperature_protection_recovery : ℚ
  charge_undertemperature_protection : ℚ
  charge_undertemperature_protection_recovery : ℚ
  power_tube_overtemperature_protection : ℚ
  power_tube_overtemperature_protection_recovery : ℚ
  cell_count : Int
  total_battery_capacity : ℚ
  short_circuit_protection_delay : ℚ
  balance_starting_voltage : ℚ
deriving DecidableEq

/-- The per-device state of the reassembler and the decoded records: the
`receivedBytes[320]` buffer, the cursor `frame`, the state flags, the
throttle counter, and the two groups of decoded fields of JKBMS.h. -/
structure JKBMS where
  receivedBytes : List Nat
  frame : Nat
  received_start : Bool
  received_complete : Bool
  new_data : Bool
  ignoreNotifyCount : Nat
  data : CellDataFields
  settings : SettingsFields
deriving DecidableEq

/-- Translation of `JKBMS::parseData`: decodes the cell-data frame from
`receivedBytes`, clears `new_data` and arms the throttle with 10. Regions
where the source leaves a field unassigned (balancing-current sign nibble
outside {0x0, 0xF}; the unreachable final else of the three status-flag
chains) keep the previous field value. -/
def JKBMS.parseData (s : JKBMS) : JKBMS :=
  let b := fun i => s.receivedBytes.getD i 0
  let voltage : ℚ := (i32le b 150 : ℚ) / 1000
  let current : ℚ := (i32le b 158 : ℚ) / 1000
  let upt := b 196 * 65536 + b 195 * 256 + b 194
  { s with
    new_data := false
    ignoreNotifyCount := 10
    data := { s.data with
      cellVoltage := (List.range 16).map fun j => ((u16le b (6 + 2 * j) : Nat) : ℚ) / 1000
      Average_Cell_Voltage := ((u16le b 74 : Nat) : ℚ) / 1000
      Delta_Cell_Voltage := ((u16le b 76 : Nat) : ℚ) / 1000
      wireResist := (List.range 16).map fun j => ((u16le b (80 + 2 * j) : Nat) : ℚ) / 1000
      MOS_Temp :=
        if b 145 = 0xFF then
          (toInt32 (0xFF * 16777216 + 0xFF * 65536 + b 145 * 256 + b 144) : ℚ) / 10
        else ((u16le b 144 : Nat) : ℚ) / 10
      Battery_Voltage := voltage
      Charge_Current := current
      Battery_Power := voltage * current
      Battery_T1 :=
        if b 163 = 0xFF then
          (toInt32 (0xFF * 16777216 + 0xFF * 65536 + b 163 * 256 + b 162) : ℚ) / 10
        else ((u16le b 162 : Nat) : ℚ) / 10
      Battery_T2 :=
        if b 165 = 0xFF then
          (toInt32 (0xFF * 16777216 + 0xFF * 65536 + b 165 * 256 + b 164) : ℚ) / 10
        else ((u16le b 164 : Nat) : ℚ) / 10
      Balance_Curr :=
        if b 171 &&& 0xF0 = 0x0 then ((b 171 * 256 + b 170 : Nat) : ℚ) / 1000
        else if b 171 &&& 0xF0 = 0xF0 then
          (((b 171 &&& 0x0F) * 256 + b 170 : Nat) : ℚ) * (-1 / 1000)
        else s.data.Balance_Curr
      Balancing_Action := b 172
      Percent_Remain := b 173
      Capacity_Remain := (i32le b 174 : ℚ) / 1000
      Nominal_Capacity := (i32le b 178 : ℚ) / 1000
      Cycle_Count := (i32le b 182 : ℚ)
      Cycle_Capacity := (i32le b 186 : ℚ) / 1000
      Uptime := upt / 60 / 60
      sec := upt % 60
      mi := upt / 60 % 60
      hr := upt / 60 / 60 % 24
      days := upt / 60 / 60 / 24
      Charge := if 0 < b 198 then true else if b 198 = 0 then false else s.data.Charge
      Discharge := if 0 < b 199 then true else if b 199 = 0 then false else s.data.Discharge
      Balance := if 0 < b 201 then true else if b 201 = 0 then false else s.data.Balance } }

/-- Translation of `JKBMS::bms_settings`: decodes the settings frame from
`receivedBytes` into the settings fields; touches neither the reassembler
flags nor `new_data` nor the throttle. -/
def JKBMS.bms_settings (s : JKBMS) : JKBMS :=
  let b := fun i => s.receivedBytes.getD i 0
  { s with settings := {
      cell_voltage_undervoltage_protection := (i32le b 10 : ℚ) / 1000
      cell_voltage_undervoltage_recovery := (i32le b 14 : ℚ) / 1000
      cell_voltage_overvoltage_protection := (i32le b 18 : ℚ) / 1000
      cell_voltage_overvoltage_recovery := (i32le b 22 : ℚ) / 1000
      balance_trigger_voltage := (i32le b 26 : ℚ) / 1000
      power_off_voltage := (i32le b 46 : ℚ) / 1000
      max_charge_current := (i32le b 50 : ℚ) / 1000
      charge_overcurrent_protection_delay := (i32le b 54 : ℚ)
      charge_overcurrent_protection_recovery_time := (i32le b 58 : ℚ)
      max_discharge_current := (i32le b 62 : ℚ) / 1000
      discharge_overcurrent_protection_delay := (i32le b 66 : ℚ)
      discharge_overcurrent_protection_recovery_time := (i32le b 70 : ℚ)
      short_circuit_protection_recovery_time := (i32le b 74 : ℚ)
      max_balance_current := (i32le b 78 : ℚ) / 1000
      charge_overtemperature_protection := (i32le b 82 : ℚ) / 10
      charge_overtemperature_protection_recovery := (i32le b 86 : ℚ) / 10
      discharge_overtemperature_protection := (i32le b 90 : ℚ) / 10
      discharge_overtemperature_protection_recovery := (i32le b 94 : ℚ) / 10
      charge_undertemperature_protection := (i32le b 98 : ℚ) / 10
      charge_undertemperature_protection_recovery := (i32le b 102 : ℚ) / 10
      power_tube_overtemperature_protection := (i32le b 106 : ℚ) / 10
      power_tube_overtemperature_protection_recovery := (i32le b 110 : ℚ) / 10
      cell_count := i32le b 114
      total_battery_capacity := (i32le b 130 : ℚ) / 1000
      short_circuit_protection_delay := (i32le b 134 : ℚ) * 1
      balance_starting_voltage := (i32le b 138 : ℚ) / 1000 } }

/-- Translation of `JKBMS::parseDeviceInfo`: the source clears `new_data`,
then extracts text fields into local variables that are only printed and
never stored in the object, so the only observable effect on the state is
`new_data := false` (the `frame < 134` early return changes nothing more). -/
def JKBMS.parseDeviceInfo (s : JKBMS) : JKBMS :=
  { s with new_data := false }

/-- Translation of the `switch (receivedBytes[4])` dispatch inside
`JKBMS::handleNotification`: 0x01 settings, 0x02 cell data, 0x03 device
info, any other type byte falls through the default and does nothing. -/
def JKBMS.dispatch (s : JKBMS) : JKBMS :=
  if s.receivedBytes.getD 4 0 = 0x01 then s.bms_settings
  else if s.receivedBytes.getD 4 0 = 0x02 then s.parseData
  else if s.receivedBytes.getD 4 0 = 0x03 then s.parseDeviceInfo
  else s

/-- Translation of the start-branch copy loop of `handleNotification`:
`for (i = 0; i < length && frame < 300; i++) receivedBytes[frame++] = pData[i];`
with no completion check inside the loop body. -/
def JKBMS.storeChunk (s : JKBMS) : List Nat → JKBMS
  | [] => s
  | b :: rest =>
    if s.frame < 300 then
      JKBMS.storeChunk
        { s with receivedBytes := s.receivedBytes.set s.frame b, frame := s.frame + 1 } rest
    else s

/-- Translation of the continuation-branch loop of `handleNotification`:
the same copy loop, but after each stored byte the source checks
`frame >= 300`, and on completion flips the flags, dispatches on the type
byte and breaks. The second component records the completed state handed
to the dispatch switch (ghost output; the first component is the source
behaviour). -/
def JKBMS.accumLoopEv (s : JKBMS) : List Nat → JKBMS × List JKBMS
  | [] => (s, [])
  | b :: rest =>
    if s.frame < 300 then
      let s1 : JKBMS :=
        { s with receivedBytes := s.receivedBytes.set s.frame b, frame := s.frame + 1 }
      if 300 ≤ s1.frame then
        let d : JKBMS := { s1 with received_complete := true, received_start := false,
                                   new_data := true }
        (d.dispatch, [d])
      else JKBMS.accumLoopEv s1 rest
    else (s, [])

/-- Translation of the body of `handleNotification` after the throttle check:
reject chunks shorter than 4 bytes, take the start branch when the first
four bytes are `0x55 0xAA 0xEB 0x90` (resetting the cursor and flags),
otherwise append while a frame is in progress, otherwise ignore. -/
def JKBMS.processChunkEv (s : JKBMS) (pData : List Nat) : JKBMS × List JKBMS :=
  if pData.length < 4 then (s, [])
  else if pData.getD 0 0 = 0x55 ∧ pData.getD 1 0 = 0xAA ∧ pData.getD 2 0 = 0xEB ∧
      pData.getD 3 0 = 0x90 then
    (JKBMS.storeChunk
      { s with frame := 0, received_start := true, received_complete := false } pData, [])
  else if s.received_start = true ∧ s.received_complete = false then
    s.accumLoopEv pData
  else (s, [])

/-- Translation of `JKBMS::handleNotification`: when the throttle counter is
positive it is decremented and the chunk is dropped; otherwise the chunk is
processed. (`lastNotifyTime = millis()` is wall-clock bookkeeping outside
the modelled state.) -/
def JKBMS.handleNotificationEv (s : JKBMS) (pData : List Nat) : JKBMS × List JKBMS :=
  if 0 < s.ignoreNotifyCount then
    ({ s with ignoreNotifyCount := s.ignoreNotifyCount - 1 }, [])
  else s.processChunkEv pData

/-- State transition of one `handleNotification` call. -/
def JKBMS.handleNotification (s : JKBMS) (pData : List Nat) : JKBMS :=
  (s.handleNotificationEv pData).1

/-- State transition of the post-throttle part of `handleNotification`
(the "normal state machine" that a call with a zero counter runs). -/
def JKBMS.processChunk (s : JKBMS) (pData : List Nat) : JKBMS :=
  (s.processChunkEv pData).1

/-- Zero-valued cell-data fields, as the constructor and the in-class
initializers of JKBMS.h produce (`uint32_t Uptime` and `sec`/`mi`/`hr`/`days`
are uninitialized in the source; 0 stands in for their indeterminate start
value, which no claim depends on). -/
def initCellData : CellDataFields :=
  { cellVoltage := List.replicate 16 0
    wireResist := List.replicate 16 0
    Average_Cell_Voltage := 0, Delta_Cell_Voltage := 0
    Battery_Voltage := 0, Battery_Power := 0, Charge_Current := 0
    Battery_T1 := 0, Battery_T2 := 0, MOS_Temp := 0
    Percent_Remain := 0, Capacity_Remain := 0, Nominal_Capacity := 0
    Cycle_Count := 0, Cycle_Capacity := 0
    Uptime := 0, sec := 0, mi := 0, hr := 0, days := 0
    Balance_Curr := 0, Balance := false, Charge := false, Discharge := false
    Balancing_Action := 0 }

/-- Zero-valued settings fields from the in-class initializers of JKBMS.h. -/
def initSettings : SettingsFields :=
  { cell_voltage_undervoltage_protection := 0, cell_voltage_undervoltage_recovery := 0
    cell_voltage_overvoltage_protection := 0, cell_voltage_overvoltage_recovery := 0
    balance_trigger_voltage := 0, power_off_voltage := 0
    max_charge_current := 0, charge_overcurrent_protection_delay := 0
    charge_overcurrent_protection_recovery_time := 0, max_discharge_current := 0
    discharge_overcurrent_protection_delay := 0
    discharge_overcurrent_protection_recovery_time := 0
    short_circuit_protection_recovery_time := 0, max_balance_current := 0
    charge_overtemperature_protection := 0, charge_overtemperature_protection_recovery := 0
    discharge_overtemperature_protection := 0
    discharge_overtemperature_protection_recovery := 0
    charge_undertemperature_protection := 0, charge_undertemperature_protection_recovery := 0
    power_tube_overtemperature_protection := 0
    power_tube_overtemperature_protection_recovery := 0
    cell_count := 0, total_battery_capacity := 0
    short_circuit_protection_delay := 0, balance_starting_voltage := 0 }

/-- State produced by the `JKBMS` constructor: cursor 0, all flags cleared,
throttle 0, and the 320-byte buffer zeroed by `memset`. -/
def initJKBMS : JKBMS :=
  { receivedBytes := List.replicate 320 0
    frame := 0
    received_start := false
    received_complete := false
    new_data := false
    ignoreNotifyCount := 0
    data := initCellData
    settings := initSettings }

/-- Translation of `JKBMS::crc`: the 8-bit wraparound sum of the first `len`
bytes (the source accumulates into a `uint8_t`, which is the sum mod 256
for byte-valued input). -/
def JKBMS.crc (data : List Nat) (len : Nat) : Nat :=
  (data.take len).sum % 256

/-- Translation of `JKBMS::writeRegister`: builds the 20-byte command frame
`AA 55 90 EB addr len v0 v1 v2 v3 0×9 crc`, with the value inserted
little-endian and the checksum computed over the first 19 bytes. The
`% 256` / `% 2^32` normalisations model the `uint8_t` / `uint32_t`
parameter types. -/
def JKBMS.writeRegister (address value lengthField : Nat) : List Nat :=
  let v := value % 4294967296
  let f : List Nat :=
    [0xAA, 0x55, 0x90, 0xEB, address % 256, lengthField % 256,
     v % 256, v / 256 % 256, v / 65536 % 256, v / 16777216 % 256,
     0, 0, 0, 0, 0, 0, 0, 0, 0]
  f ++ [JKBMS.crc f 19]

/-- Run of a sequence of notification deliveries, collecting every completed
state handed to the dispatch switch along the way (ghost trace). -/
def JKBMS.runEv (s : JKBMS) : List (List Nat) → JKBMS × List JKBMS
  | [] => (s, [])
  | c :: cs =>
    let p := s.handleNotificationEv c
    let q := p.1.runEv cs
    (q.1, p.2 ++ q.2)

/-- Start-marker bytes `0x55 0xAA 0xEB 0x90` sit at offsets 0-3 of the
frame buffer. -/
def JKBMS.markerAt (s : JKBMS) : Prop :=
  s.receivedBytes.getD 0 0 = 0x55 ∧ s.receivedBytes.getD 1 0 = 0xAA ∧
  s.receivedBytes.getD 2 0 = 0xEB ∧ s.receivedBytes.getD 3 0 = 0x90

/-
Helper lemmas about the buffer and the copy loops.
-/

theorem getD_set_ne (l : List Nat) (n i a : Nat) (h : i ≠ n) :
    (l.set n a).getD i 0 = l.getD i 0 := by
  simp [List.getD_eq_getElem?_getD, List.getElem?_set_ne (Ne.symm h)]

theorem getD_set_self (l : List Nat) (n a : Nat) (h : n < l.length) :
    (l.set n a).getD n 0 = a := by
  simp [List.getD_eq_getElem?_getD, List.getElem?_set_self', List.getElem?_eq_getElem h]

theorem getD_replicate_zero (n i : Nat) : (List.replicate n 0).getD i 0 = 0 := by
  rcases Nat.lt_or_ge i n with h | h
  · simp [List.getD_eq_getElem?_getD, List.getElem?_eq_getElem, h, List.getElem_replicate]
  · simp [List.getD_eq_default, List.length_replicate, h]

theorem storeChunk_misc (c : List Nat) (s : JKBMS) :
    (s.storeChunk c).received_start = s.received_start ∧
    (s.storeChunk c).received_complete = s.received_complete ∧
    (s.storeChunk c).new_data = s.new_data ∧
    (s.storeChunk c).ignoreNotifyCount = s.ignoreNotifyCount ∧
    (s.storeChunk c).data = s.data ∧
    (s.storeChunk c).settings = s.settings := by
  induction c generalizing s with
  | nil => simp [JKBMS.storeChunk]
  | cons b rest ih =>
    by_cases h : s.frame < 300
    · simpa [JKBMS.storeChunk, h] using ih _
    · simp [JKBMS.storeChunk, h]

theorem storeChunk_length (c : List Nat) (s : JKBMS) :
    (s.storeChunk c).receivedBytes.length = s.receivedBytes.length := by
  induction c generalizing s with
  | nil => rfl
  | cons b rest ih =>
    by_cases h : s.frame < 300
    · simp only [JKBMS.storeChunk, h, if_true]
      rw [ih]
      simp
    · simp [JKBMS.storeChunk, h]

theorem storeChunk_frame (c : List Nat) (s : JKBMS) (hf : s.frame ≤ 300) :
    (s.storeChunk c).frame = min (s.frame + c.length) 300 := by
  induction c generalizing s with
  | nil => simp [JKBMS.storeChunk]; omega
  | cons b rest ih =>
    by_cases h : s.frame < 300
    · simp only [JKBMS.storeChunk, h, if_true]
      rw [ih _ (show s.frame + 1 ≤ 300 by omega)]
      simp only [List.length_cons]
      omega
    · simp only [JKBMS.storeChunk, h, if_false, List.length_cons]
      omega

theorem storeChunk_stable (c : List Nat) (s : JKBMS) (i : Nat)
    (hi : i < s.frame ∨ 300 ≤ i) :
    (s.storeChunk c).receivedBytes.getD i 0 = s.receivedBytes.getD i 0 := by
  induction c generalizing s with
  | nil => rfl
  | cons b rest ih =>
    by_cases h : s.frame < 300
    · simp only [JKBMS.storeChunk, h, if_true]
      rw [ih _ (show i < s.frame + 1 ∨ 300 ≤ i by omega)]
      exact getD_set_ne _ _ _ _ (by omega)
    · simp [JKBMS.storeChunk, h]

theorem storeChunk_copy (c : List Nat) (s : JKBMS) (hlen : s.receivedBytes.length = 320)
    (i : Nat) (h1 : s.frame ≤ i) (h2 : i < min (s.frame + c.length) 300) :
    (s.storeChunk c).receivedBytes.getD i 0 = c.getD (i - s.frame) 0 := by
  induction c generalizing s with
  | nil => simp at h2; omega
  | cons b rest ih =>
    have hf : s.frame < 300 := by omega
    simp only [JKBMS.storeChunk, hf, if_true]
    rcases Nat.eq_or_lt_of_le h1 with heq | hlt
    · rw [storeChunk_stable _ _ _ (by simp only []; omega)]
      simp only [← heq, Nat.sub_self, List.getD_cons_zero]
      exact getD_set_self _ _ _ (by omega)
    · rw [ih _ (by simpa using hlen) (show _ ≤ i by simp only []; omega)
        (by simp only [List.length_cons] at h2 ⊢; omega)]
      have hsub : i - s.frame = (i - (s.frame + 1)) + 1 := by omega
      rw [hsub, List.getD_cons_succ]

theorem dispatch_reass (s : JKBMS) :
    s.dispatch.receivedBytes = s.receivedBytes ∧ s.dispatch.frame = s.frame ∧
    s.dispatch.received_start = s.received_start ∧
    s.dispatch.received_complete = s.received_complete := by
  simp only [JKBMS.dispatch]
  split
  · simp [JKBMS.bms_settings]
  · split
    · simp [JKBMS.parseData]
    · split
      · simp [JKBMS.parseDeviceInfo]
      · simp

theorem dispatch_unknown (s : JKBMS) (h1 : s.receivedBytes.getD 4 0 ≠ 0x01)
    (h2 : s.receivedBytes.getD 4 0 ≠ 0x02) (h3 : s.receivedBytes.getD 4 0 ≠ 0x03) :
    s.dispatch = s := by
  unfold JKBMS.dispatch
  rw [if_neg h1, if_neg h2, if_neg h3]

theorem dispatch_celldata (s : JKBMS) (h : s.receivedBytes.getD 4 0 = 0x02) :
    s.dispatch = s.parseData := by
  unfold JKBMS.dispatch
  rw [if_neg (show ¬s.receivedBytes.getD 4 0 = 0x01 by rw [h]; decide), if_pos h]

theorem accum_len (c : List Nat) (s : JKBMS) :
    (s.accumLoopEv c).1.receivedBytes.length = s.receivedBytes.length := by
  induction c generalizing s with
  | nil => rfl
  | cons b rest ih =>
    by_cases h : s.frame < 300
    · by_cases h2 : (300 : Nat) ≤ s.frame + 1
      · simp only [JKBMS.accumLoopEv, h, if_true, h2]
        rw [(dispatch_reass _).1]
        simp
      · simp only [JKBMS.accumLoopEv, h, if_true, h2, if_false]
        rw [ih]
        simp
    · simp [JKBMS.accumLoopEv, h]

theorem accum_frame (c : List Nat) (s : JKBMS) (hf : s.frame ≤ 300) :
    (s.accumLoopEv c).1.frame ≤ 300 := by
  induction c generalizing s with
  | nil => exact hf
  | cons b rest ih =>
    by_cases h : s.frame < 300
    · by_cases h2 : (300 : Nat) ≤ s.frame + 1
      · simp only [JKBMS.accumLoopEv, h, if_true, h2]
        rw [(dispatch_reass _).2.1]
        simp only []
        omega
      · simp only [JKBMS.accumLoopEv, h, if_true, h2, if_false]
        exact ih _ (by simp only []; omega)
    · simp only [JKBMS.accumLoopEv, h, if_false]
      exact hf

theorem accum_stable (c : List Nat) (s : JKBMS) (i : Nat)
    (hi : i < s.frame ∨ 300 ≤ i) :
    (s.accumLoopEv c).1.receivedBytes.getD i 0 = s.receivedBytes.getD i 0 := by
  induction c generalizing s with
  | nil => rfl
  | cons b rest ih =>
    by_cases h : s.frame < 300
    · by_cases h2 : (300 : Nat) ≤ s.frame + 1
      · simp only [JKBMS.accumLoopEv, h, if_true, h2]
        rw [(dispatch_reass _).1]
        exact getD_set_ne _ _ _ _ (by omega)
      · simp only [JKBMS.accumLoopEv, h, if_true, h2, if_false]
        rw [ih _ (show i < s.frame + 1 ∨ 300 ≤ i by omega)]
        exact getD_set_ne _ _ _ _ (by omega)
    · simp [JKBMS.accumLoopEv, h]

theorem accum_noev (c : List Nat) (s : JKBMS) (hev : (s.accumLoopEv c).2 = []) :
    (s.accumLoopEv c).1.received_start = s.received_start ∧
    (s.accumLoopEv c).1.received_complete = s.received_complete ∧
    (s.accumLoopEv c).1.new_data = s.new_data ∧
    (s.accumLoopEv c).1.ignoreNotifyCount = s.ignoreNotifyCount ∧
    (s.accumLoopEv c).1.data = s.data ∧
    (s.accumLoopEv c).1.settings = s.settings := by
  induction c generalizing s with
  | nil => simp [JKBMS.accumLoopEv]
  | cons b rest ih =>
    by_cases h : s.frame < 300
    · by_cases h2 : (300 : Nat) ≤ s.frame + 1
      · simp only [JKBMS.accumLoopEv, h, if_true, h2] at hev
        simp at hev
      · simp only [JKBMS.accumLoopEv, h, if_true, h2, if_false] at hev ⊢
        exact ih _ hev
    · simp [JKBMS.accumLoopEv, h]

theorem accum_ev (c : List Nat) (s : JKBMS) (d : JKBMS) (t : List JKBMS)
    (hev : (s.accumLoopEv c).2 = d :: t) :
    t = [] ∧ (s.accumLoopEv c).1 = d.dispatch ∧
    d.received_complete = true ∧ d.received_start = false ∧ d.new_data = true ∧
    d.frame = 300 ∧ d.ignoreNotifyCount = s.ignoreNotifyCount ∧
    d.data = s.data ∧ d.settings = s.settings ∧
    d.receivedBytes.length = s.receivedBytes.length ∧
    ∀ i, i < s.frame → d.receivedBytes.getD i 0 = s.receivedBytes.getD i 0 := by
  induction c generalizing s with
  | nil => simp [JKBMS.accumLoopEv] at hev
  | cons b rest ih =>
    by_cases h : s.frame < 300
    · by_cases h2 : (300 : Nat) ≤ s.frame + 1
      · simp only [JKBMS.accumLoopEv, h, if_true, h2] at hev ⊢
        obtain ⟨hd, ht⟩ : d = _ ∧ t = [] := by
          constructor
          · exact (List.cons.injEq _ _ _ _ ▸ hev).1.symm
          · exact (List.cons.injEq _ _ _ _ ▸ hev).2.symm
        subst hd; subst ht
        refine ⟨rfl, rfl, rfl, rfl, rfl, by simp only []; omega, rfl, rfl, rfl, by simp, ?_⟩
        intro i hilt
        exact getD_set_ne _ _ _ _ (by omega)
      · simp only [JKBMS.accumLoopEv, h, if_true, h2, if_false] at hev ⊢
        obtain ⟨ht, h1, h3, h4, h5, h6, h7, h8, h9, h10, h11⟩ := ih _ hev
        refine ⟨ht, h1, h3, h4, h5, h6, h7, h8, h9, by simpa using h10, ?_⟩
        intro i hilt
        rw [h11 i (by simp only []; omega)]
        exact getD_set_ne _ _ _ _ (by omega)
    · simp [JKBMS.accumLoopEv, h] at hev

set_option maxRecDepth 100000

/-
Concrete frames and chunks used by counterexamples and witnesses.
-/

/-- Chunk of exactly 300 bytes beginning with the start sequence and
carrying type byte 0x02. -/
def chunkStart300 : List Nat :=
  0x55 :: 0xAA :: 0xEB :: 0x90 :: 0x02 :: List.replicate 295 0

/-- Chunk of 10 bytes beginning with the start sequence, type byte 0x02. -/
def chunkTenBytes : List Nat := [0x55, 0xAA, 0xEB, 0x90, 0x02, 0, 0, 0, 0, 0]

/-- Chunk consisting of exactly the 4 start-sequence bytes. -/
def chunkMarkerOnly : List Nat := [0x55, 0xAA, 0xEB, 0x90]

/-- Chunk of 150 bytes beginning with the start sequence, type byte 0x02. -/
def chunkCellFirst : List Nat :=
  0x55 :: 0xAA :: 0xEB :: 0x90 :: 0x02 :: List.replicate 145 0

/-- Chunk of 150 bytes beginning with the start sequence and an unknown
type byte 0x05. -/
def chunkUnknownFirst : List Nat :=
  0x55 :: 0xAA :: 0xEB :: 0x90 :: 0x05 :: List.replicate 145 0

/-- Continuation chunk of 150 zero bytes (no start sequence). -/
def chunkZeros150 : List Nat := List.replicate 150 0

/-- State whose buffer holds 0x64 0x00 at offsets 170-171. -/
def balFramePos : JKBMS :=
  { initJKBMS with receivedBytes := (List.replicate 320 0).set 170 0x64 }

/-- State whose buffer holds 0x64 0xF0 at offsets 170-171. -/
def balFrameNeg : JKBMS :=
  { initJKBMS with receivedBytes := ((List.replicate 320 0).set 170 0x64).set 171 0xF0 }

/-- State whose buffer holds 0x38 0xFF at offsets 144-145. -/
def mosFrameNeg : JKBMS :=
  { initJKBMS with receivedBytes := ((List.replicate 320 0).set 144 0x38).set 145 0xFF }

/-- C5 (counterexample): the command builder applied to address 0x97, value 0,
length field 0 does not produce the frame ending in checksum byte 0x31 that
the claim states; the additive checksum of `AA 55 90 EB 97` is
0x311 mod 256 = 0x11. -/
theorem C5_counterexample :
    JKBMS.writeRegister 0x97 0 0 ≠
      [0xAA, 0x55, 0x90, 0xEB, 0x97, 0, 0, 0, 0, 0, 0, 0, 0, 0, 0, 0, 0, 0, 0, 0x31] := by
  decide

/-- C5 (amended): for every address, 32-bit value and length field, the built
frame is 20 bytes with bytes 0-3 = AA 55 90 EB, byte 4 = address, byte 5 =
lengthField, bytes 6-9 = value little-endian, bytes 10-18 = 0, byte 19 = the
8-bit wraparound sum of bytes 0-18; and `build(0x97, 0, 0)` produces exactly
`AA 55 90 EB 97` followed by fourteen 0x00 bytes and checksum byte 0x11
(the claim's stated 0x31 corrected to 0x11). -/
theorem C5_amended_layout (address value lengthField : Nat)
    (ha : address < 256) (hv : value < 4294967296) (hl : lengthField < 256) :
    (JKBMS.writeRegister address value lengthField).length = 20 ∧
    (JKBMS.writeRegister address value lengthField).take 4 = [0xAA, 0x55, 0x90, 0xEB] ∧
    (JKBMS.writeRegister address value lengthField).getD 4 0 = address ∧
    (JKBMS.writeRegister address value lengthField).getD 5 0 = lengthField ∧
    (JKBMS.writeRegister address value lengthField).getD 6 0 = value % 256 ∧
    (JKBMS.writeRegister address value lengthField).getD 7 0 = value / 256 % 256 ∧
    (JKBMS.writeRegister address value lengthField).getD 8 0 = value / 65536 % 256 ∧
    (JKBMS.writeRegister address value lengthField).getD 9 0 = value / 16777216 % 256 ∧
    (∀ i, 10 ≤ i → i ≤ 18 → (JKBMS.writeRegister address value lengthField).getD i 0 = 0) ∧
    (JKBMS.writeRegister address value lengthField).getD 19 0 =
      ((JKBMS.writeRegister address value lengthField).take 19).sum % 256 ∧
    JKBMS.writeRegister 0x97 0 0 =
      [0xAA, 0x55, 0x90, 0xEB, 0x97, 0, 0, 0, 0, 0, 0, 0, 0, 0, 0, 0, 0, 0, 0, 0x11] := by
  have hm : value % 4294967296 = value := Nat.mod_eq_of_lt hv
  refine ⟨?_, ?_, ?_, ?_, ?_, ?_, ?_, ?_, ?_, ?_, by decide⟩ <;>
    simp [JKBMS.writeRegister, JKBMS.crc, hm, Nat.mod_eq_of_lt ha, Nat.mod_eq_of_lt hl]
  intro i h10 h18
  interval_cases i <;> simp [JKBMS.writeRegister, hm]

/-- C5 (witness): the layout facts evaluated at address 0x97,
value 0x12345678, length field 4. -/
theorem C5_amended_layout_witness :
    (JKBMS.writeRegister 0x97 0x12345678 4).getD 4 0 = 0x97 ∧
    (JKBMS.writeRegister 0x97 0x12345678 4).getD 6 0 = 0x12345678 % 256 ∧
    (JKBMS.writeRegister 0x97 0x12345678 4).getD 12 0 = 0 ∧
    (JKBMS.writeRegister 0x97 0x12345678 4).getD 19 0 =
      ((JKBMS.writeRegister 0x97 0x12345678 4).take 19).sum % 256 := by
  have h := C5_amended_layout 0x97 0x12345678 4 (by decide) (by decide) (by decide)
  exact ⟨h.2.2.1, h.2.2.2.2.1, h.2.2.2.2.2.2.2.2.1 12 (by decide) (by decide),
    h.2.2.2.2.2.2.2.2.2.1⟩

/-- C6: the balancing-current decode uses the high nibble of byte 171 as the
sign flag. High nibble 0x0 gives (byte171 shifted left 8 or byte170) x 0.001;
high nibble 0xF gives ((byte171 and 0x0F) shifted left 8 or byte170) x -0.001;
any other nibble leaves `Balance_Curr` at its previous value. In particular
bytes 0x64 0x00 at offsets 170-171 decode to +0.100 and bytes 0x64 0xF0
decode to -0.100. -/
theorem C6_balance_current (s : JKBMS) :
    (s.receivedBytes.getD 171 0 &&& 0xF0 = 0x0 →
      s.parseData.data.Balance_Curr =
        ((s.receivedBytes.getD 171 0 * 256 + s.receivedBytes.getD 170 0 : Nat) : ℚ) / 1000) ∧
    (s.receivedBytes.getD 171 0 &&& 0xF0 = 0xF0 →
      s.parseData.data.Balance_Curr =
        (((s.receivedBytes.getD 171 0 &&& 0x0F) * 256 + s.receivedBytes.getD 170 0 : Nat) : ℚ)
          * (-1 / 1000)) ∧
    (s.receivedBytes.getD 171 0 &&& 0xF0 ≠ 0x0 → s.receivedBytes.getD 171 0 &&& 0xF0 ≠ 0xF0 →
      s.parseData.data.Balance_Curr = s.data.Balance_Curr) ∧
    balFramePos.parseData.data.Balance_Curr = 1 / 10 ∧
    balFrameNeg.parseData.data.Balance_Curr = -(1 / 10) := by
  refine ⟨?_, ?_, ?_, ?_, ?_⟩
  · intro h
    simp only [JKBMS.parseData, h]
    norm_num
  · intro h
    by_cases h0 : s.receivedBytes.getD 171 0 &&& 0xF0 = 0
    · rw [h0] at h
      exact absurd h.symm (by decide)
    · simp only [JKBMS.parseData, if_neg h0, if_pos h]
  · intro h0 hF
    simp only [JKBMS.parseData, if_neg h0, if_neg hF]
  · have h1 : balFramePos.receivedBytes.getD 171 0 = 0 := by decide
    have h2 : balFramePos.receivedBytes.getD 170 0 = 0x64 := by decide
    simp only [JKBMS.parseData, h1, h2]
    norm_num
  · have h1 : balFrameNeg.receivedBytes.getD 171 0 = 0xF0 := by decide
    have h2 : balFrameNeg.receivedBytes.getD 170 0 = 0x64 := by decide
    simp only [JKBMS.parseData, h1, h2]
    norm_num [show (240 &&& 15 : Nat) = 0 from by decide,
      show (240 &&& 240 : Nat) = 240 from by decide]

/-- C6 (witness): the negative branch of the balancing-current rule applied
to the concrete frame with bytes 0x64 0xF0 at offsets 170-171. -/
theorem C6_balance_current_witness :
    balFrameNeg.parseData.data.Balance_Curr =
      (((balFrameNeg.receivedBytes.getD 171 0 &&& 0x0F) * 256 +
        balFrameNeg.receivedBytes.getD 170 0 : Nat) : ℚ) * (-1 / 1000) :=
  (C6_balance_current balFrameNeg).2.1 (by decide)

theorem toInt32_sextFF (lo : Nat) (h : lo < 256) :
    toInt32 (0xFF * 16777216 + 0xFF * 65536 + 0xFF * 256 + lo) = sext16 0xFF lo := by
  unfold toInt32 sext16
  rw [Nat.mod_eq_of_lt (by omega)]
  rw [if_neg (by push_cast; omega), if_pos (by omega)]
  push_cast
  omega

/-- C7: the MOS temperature (bytes 144-145) and battery temperatures T1
(bytes 162-163) and T2 (bytes 164-165) decode with the exact-0xFF rule: when
the high byte equals 0xFF the 16-bit pair is sign-extended into a 32-bit
two's-complement value and scaled by 0.1, and for any other high byte
(including 0x80-0xFE) the 16-bit value is taken as positive and scaled by
0.1. In particular the pair 0x38 0xFF decodes to -20.0. -/
theorem C7_temperatures (s : JKBMS)
    (h144 : s.receivedBytes.getD 144 0 < 256)
    (h162 : s.receivedBytes.getD 162 0 < 256)
    (h164 : s.receivedBytes.getD 164 0 < 256) :
    (s.receivedBytes.getD 145 0 = 0xFF →
      s.parseData.data.MOS_Temp =
        ((sext16 0xFF (s.receivedBytes.getD 144 0) : Int) : ℚ) / 10) ∧
    (s.receivedBytes.getD 145 0 ≠ 0xFF →
      s.parseData.data.MOS_Temp =
        ((s.receivedBytes.getD 145 0 * 256 + s.receivedBytes.getD 144 0 : Nat) : ℚ) / 10) ∧
    (s.receivedBytes.getD 163 0 = 0xFF →
      s.parseData.data.Battery_T1 =
        ((sext16 0xFF (s.receivedBytes.getD 162 0) : Int) : ℚ) / 10) ∧
    (s.receivedBytes.getD 163 0 ≠ 0xFF →
      s.parseData.data.Battery_T1 =
        ((s.receivedBytes.getD 163 0 * 256 + s.receivedBytes.getD 162 0 : Nat) : ℚ) / 10) ∧
    (s.receivedBytes.getD 165 0 = 0xFF →
      s.parseData.data.Battery_T2 =
        ((sext16 0xFF (s.receivedBytes.getD 164 0) : Int) : ℚ) / 10) ∧
    (s.receivedBytes.getD 165 0 ≠ 0xFF →
      s.parseData.data.Battery_T2 =
        ((s.receivedBytes.getD 165 0 * 256 + s.receivedBytes.getD 164 0 : Nat) : ℚ) / 10) ∧
    mosFrameNeg.parseData.data.MOS_Temp = -20 := by
  refine ⟨?_, ?_, ?_, ?_, ?_, ?_, ?_⟩
  · intro h
    simp only [JKBMS.parseData, if_pos h, h]
    rw [toInt32_sextFF _ h144]
    simp
  · intro h
    simp only [JKBMS.parseData, if_neg h, u16le]
  · intro h
    simp only [JKBMS.parseData, if_pos h, h]
    rw [toInt32_sextFF _ h162]
    simp
  · intro h
    simp only [JKBMS.parseData, if_neg h, u16le]
  · intro h
    simp only [JKBMS.parseData, if_pos h, h]
    rw [toInt32_sextFF _ h164]
    simp
  · intro h
    simp only [JKBMS.parseData, if_neg h, u16le]
  · have h1 : mosFrameNeg.receivedBytes.getD 145 0 = 0xFF := by decide
    have h2 : mosFrameNeg.receivedBytes.getD 144 0 = 0x38 := by decide
    simp only [JKBMS.parseData, if_pos h1, h1, h2]
    norm_num [toInt32]

/-- C7 (witness): the sign-extension branch applied to the concrete frame
with bytes 0x38 0xFF at offsets 144-145, together with the concrete value. -/
theorem C7_temperatures_witness :
    mosFrameNeg.parseData.data.MOS_Temp =
      ((sext16 0xFF (mosFrameNeg.receivedBytes.getD 144 0) : Int) : ℚ) / 10 ∧
    mosFrameNeg.parseData.data.MOS_Temp = -20 := by
  have h := C7_temperatures mosFrameNeg (by decide) (by decide) (by decide)
  exact ⟨h.1 (by decide), h.2.2.2.2.2.2⟩

theorem start_branch_spec (s : JKBMS) (c : List Nat)
    (hthr : s.ignoreNotifyCount = 0)
    (hbuf : s.receivedBytes.length = 320)
    (hlen : 4 ≤ c.length)
    (hm : c.getD 0 0 = 0x55 ∧ c.getD 1 0 = 0xAA ∧ c.getD 2 0 = 0xEB ∧ c.getD 3 0 = 0x90) :
    (s.handleNotification c).frame = min c.length 300 ∧
    (s.handleNotification c).received_start = true ∧
    (s.handleNotification c).received_complete = false ∧
    (∀ i, i < min c.length 300 → (s.handleNotification c).receivedBytes.getD i 0 = c.getD i 0) ∧
    (s.handleNotification c).new_data = s.new_data ∧
    (s.handleNotification c).ignoreNotifyCount = 0 ∧
    (s.handleNotification c).data = s.data ∧
    (s.handleNotification c).settings = s.settings := by
  have hstep : s.handleNotification c = JKBMS.storeChunk
      { s with frame := 0, received_start := true, received_complete := false } c := by
    unfold JKBMS.handleNotification JKBMS.handleNotificationEv JKBMS.processChunkEv
    rw [if_neg (show ¬0 < s.ignoreNotifyCount by omega),
        if_neg (show ¬c.length < 4 by omega), if_pos hm]
  rw [hstep]
  refine ⟨?_, ?_, ?_, ?_, ?_, ?_, ?_, ?_⟩
  · rw [storeChunk_frame]
    · show min (0 + c.length) 300 = min c.length 300
      omega
    · show (0 : Nat) ≤ 300
      omega
  · exact (storeChunk_misc _ _).1
  · exact (storeChunk_misc _ _).2.1
  · intro i hi
    rw [storeChunk_copy]
    · show c.getD (i - 0) 0 = c.getD i 0
      rw [Nat.sub_zero]
    · show s.receivedBytes.length = 320
      exact hbuf
    · show 0 ≤ i
      omega
    · show i < min (0 + c.length) 300
      omega
  · exact (storeChunk_misc _ _).2.2.1
  · rw [(storeChunk_misc _ _).2.2.2.1]
    exact hthr
  · exact (storeChunk_misc _ _).2.2.2.2.1
  · exact (storeChunk_misc _ _).2.2.2.2.2

/-- C1 (counterexample): delivering, in the Idle initial state with zero
throttle, a single 300-byte chunk whose first 4 bytes are the start sequence
and whose type byte is 0x02 makes the cursor reach 300 but leaves
`received_complete` false, `received_start` true, and the throttle at 0 (so
`parseData`, which would set it to 10, never ran): the start branch of the
source has no completion check, refuting the final clause of the claim. -/
theorem C1_counterexample :
    (initJKBMS.handleNotification chunkStart300).frame = 300 ∧
    (initJKBMS.handleNotification chunkStart300).received_complete = false ∧
    (initJKBMS.handleNotification chunkStart300).received_start = true ∧
    (initJKBMS.handleNotification chunkStart300).ignoreNotifyCount = 0 ∧
    (initJKBMS.handleNotification chunkStart300).new_data = false := by
  decide

/-- C1 (amended): for every chunk of length >= 4 delivered while the
reassembler is Idle (`received_start` false or `received_complete` true)
with zero throttle, if the chunk's first 4 bytes equal 0x55 0xAA 0xEB 0x90
then the call resets the cursor to 0, copies min(chunk length, 300) bytes of
the chunk into the frame buffer, advances the cursor by that amount and
enters Accumulating; but even when the cursor reaches 300 from that single
chunk the frame is not signalled complete and no decoder is dispatched in
that call (completion fires only from a later continuation chunk). -/
theorem C1_amended_start (s : JKBMS) (c : List Nat)
    (hidle : s.received_start = false ∨ s.received_complete = true)
    (hthr : s.ignoreNotifyCount = 0)
    (hbuf : s.receivedBytes.length = 320)
    (hlen : 4 ≤ c.length)
    (hm : c.getD 0 0 = 0x55 ∧ c.getD 1 0 = 0xAA ∧ c.getD 2 0 = 0xEB ∧ c.getD 3 0 = 0x90) :
    (s.handleNotification c).frame = min c.length 300 ∧
    (s.handleNotification c).received_start = true ∧
    (s.handleNotification c).received_complete = false ∧
    (∀ i, i < min c.length 300 → (s.handleNotification c).receivedBytes.getD i 0 = c.getD i 0) ∧
    (s.handleNotification c).new_data = s.new_data ∧
    (s.handleNotification c).ignoreNotifyCount = 0 ∧
    (s.handleNotification c).data = s.data ∧
    (s.handleNotification c).settings = s.settings :=
  start_branch_spec s c hthr hbuf hlen hm

/-- C1 (witness): the amended start-branch behaviour evaluated on the Idle
initial state and the 10-byte start chunk. -/
theorem C1_amended_start_witness :
    (initJKBMS.handleNotification chunkTenBytes).frame = min chunkTenBytes.length 300 ∧
    (initJKBMS.handleNotification chunkTenBytes).received_start = true ∧
    (initJKBMS.handleNotification chunkTenBytes).received_complete = false ∧
    (initJKBMS.handleNotification chunkTenBytes).receivedBytes.getD 4 0 =
      chunkTenBytes.getD 4 0 := by
  have h := C1_amended_start initJKBMS chunkTenBytes (Or.inl (by decide)) (by decide)
    (by decide) (by decide) (by decide)
  exact ⟨h.1, h.2.1, h.2.2.1, h.2.2.2.1 4 (by decide)⟩

/-- C2 (counterexample): with a frame in progress (Accumulating, cursor 10,
zero throttle), delivering a 4-byte chunk equal to the start sequence does
not append it (which would move the cursor to 14): the source checks for the
start sequence before the continuation branch and restarts, leaving the
cursor at 4. -/
theorem C2_counterexample :
    (initJKBMS.handleNotification chunkTenBytes).received_start = true ∧
    (initJKBMS.handleNotification chunkTenBytes).received_complete = false ∧
    (initJKBMS.handleNotification chunkTenBytes).frame = 10 ∧
    ((initJKBMS.handleNotification chunkTenBytes).handleNotification chunkMarkerOnly).frame
      = 4 ∧
    ¬ ((initJKBMS.handleNotification chunkTenBytes).handleNotification chunkMarkerOnly).frame
      = 14 := by
  decide

/-- C2 (amended): for every Accumulating state (`received_start` true,
`received_complete` false, cursor < 300) with zero throttle, a chunk of
length >= 4 whose first 4 bytes equal the start sequence is NOT appended as
payload: the start-sequence check precedes the continuation branch, so the
chunk restarts the frame — the cursor is reset to 0 and then advanced to
min(chunk length, 300) with the chunk's bytes copied from offset 0. Only
chunks not beginning with the start sequence are appended as payload. -/
theorem C2_amended_restart (s : JKBMS) (c : List Nat)
    (hacc : s.received_start = true ∧ s.received_complete = false ∧ s.frame < 300)
    (hthr : s.ignoreNotifyCount = 0)
    (hbuf : s.receivedBytes.length = 320)
    (hlen : 4 ≤ c.length)
    (hm : c.getD 0 0 = 0x55 ∧ c.getD 1 0 = 0xAA ∧ c.getD 2 0 = 0xEB ∧ c.getD 3 0 = 0x90) :
    (s.handleNotification c).frame = min c.length 300 ∧
    (∀ i, i < min c.length 300 → (s.handleNotification c).receivedBytes.getD i 0 = c.getD i 0) ∧
    (s.handleNotification c).received_start = true ∧
    (s.handleNotification c).received_complete = false := by
  have h := start_branch_spec s c hthr hbuf hlen hm
  exact ⟨h.1, h.2.2.2.1, h.2.1, h.2.2.1⟩

/-- C2 (witness): the restart behaviour evaluated on the Accumulating state
reached by the 10-byte start chunk, hit with a marker-only 4-byte chunk. -/
theorem C2_amended_restart_witness :
    ((initJKBMS.handleNotification chunkTenBytes).handleNotification chunkMarkerOnly).frame
      = min chunkMarkerOnly.length 300 ∧
    ((initJKBMS.handleNotification chunkTenBytes).handleNotification
      chunkMarkerOnly).receivedBytes.getD 0 0 = chunkMarkerOnly.getD 0 0 ∧
    ((initJKBMS.handleNotification chunkTenBytes).handleNotification
      chunkMarkerOnly).received_start = true := by
  have h := C2_amended_restart (initJKBMS.handleNotification chunkTenBytes) chunkMarkerOnly
    (by refine ⟨?_, ?_, ?_⟩ <;> decide) (by decide) (by decide) (by decide) (by decide)
  exact ⟨h.1, h.2.1 0 (by decide), h.2.2.1⟩

theorem throttled_foldl (chunks : List (List Nat)) (s : JKBMS)
    (h : chunks.length ≤ s.ignoreNotifyCount) :
    chunks.foldl JKBMS.handleNotification s =
      { s with ignoreNotifyCount := s.ignoreNotifyCount - chunks.length } := by
  induction chunks generalizing s with
  | nil => rfl
  | cons c cs ih =>
    have h0 : 0 < s.ignoreNotifyCount := by
      simp only [List.length_cons] at h
      omega
    have hstep : s.handleNotification c =
        { s with ignoreNotifyCount := s.ignoreNotifyCount - 1 } := by
      unfold JKBMS.handleNotification JKBMS.handleNotificationEv
      rw [if_pos h0]
    rw [List.foldl_cons, hstep, ih _ (show cs.length ≤ s.ignoreNotifyCount - 1 by
      simp only [List.length_cons] at h
      omega)]
    have harith : s.ignoreNotifyCount - 1 - cs.length =
        s.ignoreNotifyCount - (c :: cs).length := by
      simp only [List.length_cons]
      omega
    rw [show ({ s with ignoreNotifyCount := s.ignoreNotifyCount - 1 } : JKBMS).ignoreNotifyCount
        - cs.length = s.ignoreNotifyCount - (c :: cs).length from harith]

/-- C3: from any state whose throttle counter is 10 (as set by a CellData
decode), the next 10 `handleNotification` calls each decrement the counter
and change nothing else — after any i <= 10 of them the state equals the
original with counter 10 - i, whatever the chunks' content or length — and
the 11th call is processed by the normal (post-throttle) state machine. -/
theorem C3_throttle (s : JKBMS) (hs : s.ignoreNotifyCount = 10)
    (chunks : List (List Nat)) (hlen : chunks.length = 10)
    (i : Nat) (hi : i ≤ 10) (c : List Nat) :
    (chunks.take i).foldl JKBMS.handleNotification s =
      { s with ignoreNotifyCount := 10 - i } ∧
    (chunks.foldl JKBMS.handleNotification s).handleNotification c =
      JKBMS.processChunk { s with ignoreNotifyCount := 0 } c := by
  constructor
  · have htake : (chunks.take i).length = i := by
      rw [List.length_take]
      omega
    rw [throttled_foldl _ _ (by rw [htake, hs]; omega), htake, hs]
  · rw [throttled_foldl _ _ (by rw [hlen, hs]), hlen, hs]
    show JKBMS.handleNotification { s with ignoreNotifyCount := 0 } c = _
    unfold JKBMS.handleNotification JKBMS.handleNotificationEv JKBMS.processChunk
    rw [if_neg (show ¬(0 : Nat) < 0 by omega)]

/-- C3 (witness): the throttle behaviour evaluated from the initial state
with counter 10, ten marker-only chunks, i = 7, and an 11th chunk. -/
theorem C3_throttle_witness :
    ((List.replicate 10 chunkMarkerOnly).take 7).foldl JKBMS.handleNotification
      { initJKBMS with ignoreNotifyCount := 10 } =
      { { initJKBMS with ignoreNotifyCount := 10 } with ignoreNotifyCount := 10 - 7 } ∧
    ((List.replicate 10 chunkMarkerOnly).foldl JKBMS.handleNotification
      { initJKBMS with ignoreNotifyCount := 10 }).handleNotification chunkMarkerOnly =
      JKBMS.processChunk
        { { initJKBMS with ignoreNotifyCount := 10 } with ignoreNotifyCount := 0 }
        chunkMarkerOnly :=
  C3_throttle { initJKBMS with ignoreNotifyCount := 10 } (by decide)
    (List.replicate 10 chunkMarkerOnly) (by decide) 7 (by decide) chunkMarkerOnly

/-- C4 (code behaviour at the failing input): completing a frame with type
byte 0x02 across two chunks does run the CellData decoder — the frame is
marked complete and the throttle is armed with 10 — but the call returns
with `new_data = false`, not true: `handleNotification` sets the flag just
before dispatch and `parseData` immediately overwrites it with false, so the
"new data available" signal the claim (and the library's own usage examples,
which poll `bms.new_data`) describe is never observable for cell data. -/
theorem C4_code_behavior :
    (((initJKBMS.handleNotification chunkCellFirst).handleNotification
      chunkZeros150).received_complete = true) ∧
    (((initJKBMS.handleNotification chunkCellFirst).handleNotification
      chunkZeros150).ignoreNotifyCount = 10) ∧
    (((initJKBMS.handleNotification chunkCellFirst).handleNotification
      chunkZeros150).new_data = false) := by
  decide

theorem handleEv_events (s : JKBMS) (c : List Nat) (d : JKBMS) (t : List JKBMS)
    (hev : (s.handleNotificationEv c).2 = d :: t) :
    s.handleNotificationEv c = s.accumLoopEv c ∧
    ¬0 < s.ignoreNotifyCount ∧ s.received_start = true ∧ s.received_complete = false := by
  unfold JKBMS.handleNotificationEv JKBMS.processChunkEv at hev ⊢
  by_cases h0 : 0 < s.ignoreNotifyCount
  · rw [if_pos h0] at hev
    simp at hev
  · rw [if_neg h0] at hev ⊢
    by_cases hl : c.length < 4
    · rw [if_pos hl] at hev
      simp at hev
    · rw [if_neg hl] at hev ⊢
      by_cases hm : c.getD 0 0 = 0x55 ∧ c.getD 1 0 = 0xAA ∧ c.getD 2 0 = 0xEB ∧
          c.getD 3 0 = 0x90
      · rw [if_pos hm] at hev
        simp at hev
      · rw [if_neg hm] at hev ⊢
        by_cases hacc : s.received_start = true ∧ s.received_complete = false
        · rw [if_pos hacc] at hev ⊢
          exact ⟨rfl, h0, hacc.1, hacc.2⟩
        · rw [if_neg hacc] at hev
          simp at hev

/-- C8: whenever a `handleNotification` call completes a frame whose type
byte (offset 4) is outside {0x01, 0x02, 0x03}, no decoder is invoked and no
decoded-record field is written — every cell-data and settings field keeps
the value it had before the call (nothing device-info-related is stored in
the object at all) — and the reassembler returns Idle (`received_start`
false, `received_complete` true) with its throttle unchanged, ready to
accept the next start marker. -/
theorem C8_unknown_type (s : JKBMS) (c : List Nat) (t : Nat)
    (hev : ((s.handleNotificationEv c).2).map (fun d => d.receivedBytes.getD 4 0) = [t])
    (h1 : t ≠ 0x01) (h2 : t ≠ 0x02) (h3 : t ≠ 0x03) :
    (s.handleNotification c).data = s.data ∧
    (s.handleNotification c).settings = s.settings ∧
    (s.handleNotification c).received_start = false ∧
    (s.handleNotification c).received_complete = true ∧
    (s.handleNotification c).ignoreNotifyCount = s.ignoreNotifyCount := by
  obtain ⟨d, rest, hds⟩ : ∃ d rest, (s.handleNotificationEv c).2 = d :: rest := by
    rcases h : (s.handleNotificationEv c).2 with _ | ⟨d, rest⟩
    · rw [h] at hev
      simp at hev
    · exact ⟨d, rest, rfl⟩
  have ht : d.receivedBytes.getD 4 0 = t := by
    rw [hds] at hev
    simp only [List.map_cons, List.cons.injEq] at hev
    exact hev.1
  obtain ⟨heq, _, _, _⟩ := handleEv_events s c d rest hds
  rw [heq] at hds
  obtain ⟨hrest, hres, hc1, hc2, _, _, hign, hdata, hsett, _, _⟩ := accum_ev c s d rest hds
  have hfin : s.handleNotification c = d := by
    unfold JKBMS.handleNotification
    rw [heq, hres]
    exact dispatch_unknown d (by rw [ht]; exact h1) (by rw [ht]; exact h2)
      (by rw [ht]; exact h3)
  rw [hfin]
  exact ⟨hdata, hsett, hc2, hc1, hign⟩

/-- C8 (witness): the unknown-type behaviour evaluated on the completion of
a type-0x05 frame delivered in two chunks. -/
theorem C8_unknown_type_witness :
    ((initJKBMS.handleNotification chunkUnknownFirst).handleNotification chunkZeros150).data
      = (initJKBMS.handleNotification chunkUnknownFirst).data ∧
    ((initJKBMS.handleNotification chunkUnknownFirst).handleNotification
      chunkZeros150).settings = (initJKBMS.handleNotification chunkUnknownFirst).settings ∧
    ((initJKBMS.handleNotification chunkUnknownFirst).handleNotification
      chunkZeros150).received_start = false ∧
    ((initJKBMS.handleNotification chunkUnknownFirst).handleNotification
      chunkZeros150).received_complete = true ∧
    ((initJKBMS.handleNotification chunkUnknownFirst).handleNotification
      chunkZeros150).ignoreNotifyCount =
      (initJKBMS.handleNotification chunkUnknownFirst).ignoreNotifyCount :=
  C8_unknown_type (initJKBMS.handleNotification chunkUnknownFirst) chunkZeros150 0x05
    (by decide) (by decide) (by decide) (by decide)

/-- Buffer-safety invariant: the cursor never exceeds 300, the buffer keeps
its 320 entries, and every entry at offset 300 or beyond still holds the 0
that `memset` put there (no write ever lands at or past offset 300). -/
def JKBMS.BufInv (s : JKBMS) : Prop :=
  s.frame ≤ 300 ∧ s.receivedBytes.length = 320 ∧
  ∀ i, 300 ≤ i → s.receivedBytes.getD i 0 = 0

theorem bufInv_step (s : JKBMS) (c : List Nat) (h : s.BufInv) :
    (s.handleNotification c).BufInv := by
  obtain ⟨hf, hl, hz⟩ := h
  unfold JKBMS.handleNotification JKBMS.handleNotificationEv
  by_cases ht : 0 < s.ignoreNotifyCount
  · rw [if_pos ht]
    exact ⟨hf, hl, hz⟩
  · rw [if_neg ht]
    unfold JKBMS.processChunkEv
    by_cases hlen : c.length < 4
    · rw [if_pos hlen]
      exact ⟨hf, hl, hz⟩
    · rw [if_neg hlen]
      by_cases hm : c.getD 0 0 = 0x55 ∧ c.getD 1 0 = 0xAA ∧ c.getD 2 0 = 0xEB ∧
          c.getD 3 0 = 0x90
      · rw [if_pos hm]
        refine ⟨?_, ?_, ?_⟩
        · rw [storeChunk_frame]
          · omega
          · show (0 : Nat) ≤ 300
            omega
        · rw [storeChunk_length]
          exact hl
        · intro i hi
          rw [storeChunk_stable _ _ _ (Or.inr hi)]
          exact hz i hi
      · rw [if_neg hm]
        by_cases hacc : s.received_start = true ∧ s.received_complete = false
        · rw [if_pos hacc]
          refine ⟨accum_frame _ _ hf, ?_, ?_⟩
          · rw [accum_len]
            exact hl
          · intro i hi
            rw [accum_stable _ _ _ (Or.inr hi)]
            exact hz i hi
        · rw [if_neg hacc]
          exact ⟨hf, hl, hz⟩

theorem bufInv_run (chunks : List (List Nat)) (s : JKBMS) (h : s.BufInv) :
    (chunks.foldl JKBMS.handleNotification s).BufInv := by
  induction chunks generalizing s with
  | nil => exact h
  | cons c cs ih => exact ih _ (bufInv_step _ _ h)

theorem bufInv_init : initJKBMS.BufInv := by
  refine ⟨show (0 : Nat) ≤ 300 by omega, by simp [initJKBMS], fun i hi => ?_⟩
  show (List.replicate 320 0).getD i 0 = 0
  exact getD_replicate_zero _ _

/-- C9: starting from the constructor state, after any sequence of
`handleNotification` calls with chunks of any content and length, the cursor
`frame` never exceeds 300, and every offset of `receivedBytes` at or beyond
300 still holds its initial 0 — every write into the 320-byte buffer
occurred at an index strictly below 300 and the out-of-bounds region is
untouched. -/
theorem C9_cursor_bound (chunks : List (List Nat)) (i : Nat) (hi : 300 ≤ i) :
    (chunks.foldl JKBMS.handleNotification initJKBMS).frame ≤ 300 ∧
    (chunks.foldl JKBMS.handleNotification initJKBMS).receivedBytes.getD i 0 = 0 := by
  have h := bufInv_run chunks initJKBMS bufInv_init
  exact ⟨h.1, h.2.2 i hi⟩

/-- C9 (witness): the bound evaluated after a three-chunk delivery at
offset 305. -/
theorem C9_cursor_bound_witness :
    ([chunkCellFirst, chunkZeros150, chunkTenBytes].foldl JKBMS.handleNotification
      initJKBMS).frame ≤ 300 ∧
    ([chunkCellFirst, chunkZeros150, chunkTenBytes].foldl JKBMS.handleNotification
      initJKBMS).receivedBytes.getD 305 0 = 0 :=
  C9_cursor_bound [chunkCellFirst, chunkZeros150, chunkTenBytes] 305 (by decide)

theorem accum_frame_ge (c : List Nat) (s : JKBMS) (hf : s.frame ≤ 300) :
    s.frame ≤ (s.accumLoopEv c).1.frame := by
  induction c generalizing s with
  | nil => exact Nat.le_refl _
  | cons b rest ih =>
    by_cases h : s.frame < 300
    · by_cases h2 : (300 : Nat) ≤ s.frame + 1
      · simp only [JKBMS.accumLoopEv, h, if_true, h2]
        rw [(dispatch_reass _).2.1]
        show s.frame ≤ s.frame + 1
        omega
      · simp only [JKBMS.accumLoopEv, h, if_true, h2, if_false]
        have hih : s.frame + 1 ≤ ((JKBMS.accumLoopEv
            { s with receivedBytes := s.receivedBytes.set s.frame b, frame := s.frame + 1 }
            rest).1).frame :=
          ih { s with receivedBytes := s.receivedBytes.set s.frame b, frame := s.frame + 1 }
            (show s.frame + 1 ≤ 300 by omega)
        omega
    · simp only [JKBMS.accumLoopEv, h, if_false]
      exact Nat.le_refl _

/-- Reachability invariant for dispatch: whenever a frame is in progress
(`received_start` true) the cursor is at least 4 and the start sequence sits
at offsets 0-3 of the buffer. -/
def JKBMS.StartInv (s : JKBMS) : Prop :=
  s.frame ≤ 300 ∧ s.receivedBytes.length = 320 ∧
  (s.received_start = true → 4 ≤ s.frame ∧ s.markerAt)

theorem startInv_step (s : JKBMS) (c : List Nat) (h : s.StartInv) :
    (s.handleNotification c).StartInv := by
  obtain ⟨hf, hl, hs⟩ := h
  unfold JKBMS.handleNotification JKBMS.handleNotificationEv
  by_cases ht : 0 < s.ignoreNotifyCount
  · rw [if_pos ht]
    exact ⟨hf, hl, hs⟩
  · rw [if_neg ht]
    unfold JKBMS.processChunkEv
    by_cases hlen : c.length < 4
    · rw [if_pos hlen]
      exact ⟨hf, hl, hs⟩
    · rw [if_neg hlen]
      by_cases hm : c.getD 0 0 = 0x55 ∧ c.getD 1 0 = 0xAA ∧ c.getD 2 0 = 0xEB ∧
          c.getD 3 0 = 0x90
      · rw [if_pos hm]
        show (JKBMS.storeChunk
          { s with frame := 0, received_start := true, received_complete := false } c).StartInv
        refine ⟨?_, ?_, fun _ => ⟨?_, ?_, ?_, ?_, ?_⟩⟩
        · rw [storeChunk_frame]
          · show min (0 + c.length) 300 ≤ 300
            omega
          · show (0 : Nat) ≤ 300
            omega
        · rw [storeChunk_length]
          exact hl
        · rw [storeChunk_frame]
          · show 4 ≤ min (0 + c.length) 300
            omega
          · show (0 : Nat) ≤ 300
            omega
        · rw [storeChunk_copy]
          · exact hm.1
          · exact hl
          · exact Nat.zero_le _
          · show (0 : Nat) < min (0 + c.length) 300
            omega
        · rw [storeChunk_copy]
          · exact hm.2.1
          · exact hl
          · exact Nat.zero_le _
          · show (1 : Nat) < min (0 + c.length) 300
            omega
        · rw [storeChunk_copy]
          · exact hm.2.2.1
          · exact hl
          · exact Nat.zero_le _
          · show (2 : Nat) < min (0 + c.length) 300
            omega
        · rw [storeChunk_copy]
          · exact hm.2.2.2
          · exact hl
          · exact Nat.zero_le _
          · show (3 : Nat) < min (0 + c.length) 300
            omega
      · rw [if_neg hm]
        by_cases hacc : s.received_start = true ∧ s.received_complete = false
        · rw [if_pos hacc]
          obtain ⟨h4, hmk⟩ := hs hacc.1
          rcases hev : (s.accumLoopEv c).2 with _ | ⟨d, rest⟩
          · obtain ⟨hrs, _, _, _, _, _⟩ := accum_noev c s hev
            refine ⟨accum_frame _ _ hf, by rw [accum_len]; exact hl, fun _ => ⟨?_, ?_, ?_, ?_, ?_⟩⟩
            · have := accum_frame_ge c s hf
              omega
            all_goals rw [accum_stable _ _ _ (Or.inl (by omega))]
            · exact hmk.1
            · exact hmk.2.1
            · exact hmk.2.2.1
            · exact hmk.2.2.2
          · obtain ⟨_, hres, _, hds, _, hdf, _, _, _, hdl, hdlow⟩ := accum_ev c s d rest hev
            rw [hres]
            refine ⟨?_, ?_, fun hcon => ?_⟩
            · rw [(dispatch_reass _).2.1, hdf]
            · rw [(dispatch_reass _).1, hdl]
              exact hl
            · rw [(dispatch_reass _).2.2.1, hds] at hcon
              exact absurd hcon (by decide)
        · rw [if_neg hacc]
          exact ⟨hf, hl, hs⟩

theorem startInv_ev (s : JKBMS) (c : List Nat) (h : s.StartInv) (d : JKBMS)
    (hd : d ∈ (s.handleNotificationEv c).2) : d.frame = 300 ∧ d.markerAt := by
  obtain ⟨hf, hl, hs⟩ := h
  rcases hev : (s.handleNotificationEv c).2 with _ | ⟨d0, rest⟩
  · rw [hev] at hd
    simp at hd
  · obtain ⟨heq, _, hrs, _⟩ := handleEv_events s c d0 rest hev
    rw [heq] at hev
    obtain ⟨hrest, _, _, _, _, hdf, _, _, _, _, hdlow⟩ := accum_ev c s d0 rest hev
    obtain ⟨h4, hmk⟩ := hs hrs
    rw [heq, hev, hrest] at hd
    simp only [List.mem_singleton] at hd
    subst hd
    refine ⟨hdf, ?_, ?_, ?_, ?_⟩
    all_goals rw [hdlow _ (by omega)]
    · exact hmk.1
    · exact hmk.2.1
    · exact hmk.2.2.1
    · exact hmk.2.2.2

theorem startInv_run (chunks : List (List Nat)) (s : JKBMS) (h : s.StartInv) (d : JKBMS)
    (hd : d ∈ (s.runEv chunks).2) : d.frame = 300 ∧ d.markerAt := by
  induction chunks generalizing s with
  | nil => simp [JKBMS.runEv] at hd
  | cons c cs ih =>
    simp only [JKBMS.runEv, List.mem_append] at hd
    rcases hd with hd | hd
    · exact startInv_ev s c h d hd
    · exact ih _ (startInv_step s c h) hd

/-- C10: along every sequence of chunk deliveries from the constructor
state, every completed frame handed to the dispatch switch (hence every
decoder invocation) happens with the cursor exactly 300 and with the start
sequence 0x55 0xAA 0xEB 0x90 at offsets 0-3 of `receivedBytes`. -/
theorem C10_dispatch_inv (chunks : List (List Nat)) (d : JKBMS)
    (hd : d ∈ (initJKBMS.runEv chunks).2) : d.frame = 300 ∧ d.markerAt :=
  startInv_run chunks initJKBMS
    ⟨show (0 : Nat) ≤ 300 by omega, by simp [initJKBMS],
     fun hcon => absurd hcon (by decide)⟩ d hd

/-- C10 (witness): the invariant evaluated on the dispatch event produced by
completing a type-0x05 frame in two chunks. -/
theorem C10_dispatch_inv_witness :
    ((initJKBMS.runEv [chunkUnknownFirst, chunkZeros150]).2.getD 0 initJKBMS).frame = 300 ∧
    ((initJKBMS.runEv [chunkUnknownFirst, chunkZeros150]).2.getD 0 initJKBMS).markerAt :=
  C10_dispatch_inv [chunkUnknownFirst, chunkZeros150]
    ((initJKBMS.runEv [chunkUnknownFirst, chunkZeros150]).2.getD 0 initJKBMS) (by decide)
